import Mathlib

/-!
Verification development for the LJCourses course-management application.

The embedding follows the Python source:
  * `app/models.py`        — table schemas (column and constraint declarations)
  * `app/services/*.py`    — service functions over an in-memory database state
  * `app/routes/course.py` — the session-cookie route handlers
  * `app/app.py`           — the token-API endpoint handlers
  * `app/utils.py`, `app/config.py`, `app/routes/student.py` — upload validation

Conventions: timestamps are naturals (`now` is passed explicitly where the
source calls `datetime.now()`); UUIDs are naturals drawn from a `nextId`
counter; strings that only ever face byte-wise tests are `List Char`.
Python float arithmetic (used only in the progress-percentage expression)
is modelled exactly as IEEE-754 binary64 over unnormalised fractions of
naturals, valid on the normal range — see `roundDouble`.
-/

namespace LJCourses

/-! ## Exact model of Python float arithmetic (binary64, round-to-nearest-even)

`app/routes/course.py` line 164 (and `main.py` line 254) computes
`int((completed_count / total_lessons) * 100)` with Python floats.
We model the nonnegative doubles arising there as exact fractions
`(num, den)` of naturals and round with 53-bit precision.  The model is
exact for magnitudes in `[2^-70, 2^70)`, which covers every value the
expression can produce for any course size below `2^70` lessons. -/

/-- Decision procedure `pow2le e a b` for `2^e ≤ a/b` for a positive fraction `a/b`. -/
def pow2le (e : ℤ) (a b : ℕ) : Bool :=
  if 0 ≤ e then b * 2 ^ e.toNat ≤ a else b ≤ a * 2 ^ (-e).toNat

/-- Linear search for the binade: climbs from exponent `e` as long as
`2^(e+1) ≤ a/b`, with explicit fuel. -/
def floorLog2Aux : ℕ → ℕ → ℕ → ℤ → ℤ
  | 0, _, _, e => e
  | n + 1, a, b, e => if pow2le (e + 1) a b then floorLog2Aux n a b (e + 1) else e

/-- Computes `⌊log₂ (a/b)⌋` for a positive fraction in the range `[2^-70, 2^70)`. -/
def floorLog2 (a b : ℕ) : ℤ := floorLog2Aux 141 a b (-70)

/-- Round the nonnegative fraction `a/b` to the nearest IEEE-754 binary64
value (round half to even), returned as an exact fraction.  Models the
result of a Python float division or multiplication on the normal range. -/
def roundDouble (a b : ℕ) : ℕ × ℕ :=
  if a = 0 then (0, 1)
  else
    let e : ℤ := floorLog2 a b
    -- significand s = (a/b) * 2^(52-e) ∈ [2^52, 2^53), as the fraction sn/sd
    let sn : ℕ := if 0 ≤ 52 - e then a * 2 ^ (52 - e).toNat else a
    let sd : ℕ := if 0 ≤ 52 - e then b else b * 2 ^ (e - 52).toNat
    let n : ℕ := sn / sd
    let rem : ℕ := sn % sd
    let r : ℕ :=
      if 2 * rem < sd then n
      else if sd < 2 * rem then n + 1
      else if n % 2 = 0 then n else n + 1
    if 0 ≤ e - 52 then (r * 2 ^ (e - 52).toNat, 1) else (r, 2 ^ (52 - e).toNat)

/-- Python `completed_count / total_lessons` (true division of ints,
yielding a float). -/
def pyDiv (a b : ℕ) : ℕ × ℕ := roundDouble a b

/-- Python `x * 100` on a float `x` (the int literal 100 is exact). -/
def pyMul100 (x : ℕ × ℕ) : ℕ × ℕ := roundDouble (x.1 * 100) x.2

/-- From `app/routes/course.py` line 164:
`progress_percent = int((completed_count / total_lessons) * 100) if total_lessons > 0 else 0`.
`int()` truncates toward zero; the value is nonnegative, so it is the
floor of the double product, i.e. natural division on the fraction. -/
def progress_percent (completed_count total_lessons : ℕ) : ℕ :=
  if 0 < total_lessons then
    let x := pyMul100 (pyDiv completed_count total_lessons)
    x.1 / x.2
  else 0

example : progress_percent 29 50 = 57 := by decide
example : progress_percent 1 3 = 33 := by decide
example : progress_percent 2 3 = 66 := by decide
example : progress_percent 3 3 = 100 := by decide
example : progress_percent 0 0 = 0 := by decide

/-! ## Data model (`app/models.py`)

Rows of the four tables the claims touch.  UUID columns are naturals;
`DateTime` columns are naturals; nullable `DateTime` columns are
`Option ℕ`.  Columns never read or written by any modelled operation
(`watch_time`, text fields, …) are omitted; `progress_percentage`
(a Float column that no code path ever writes) is carried as the
constant-0 natural it always holds. -/

/-- Row of `app/models.py` `Lesson` (the columns used by the modelled code). -/
structure Lesson where
  id : ℕ
  course_id : ℕ
  order : ℤ
  deriving DecidableEq, Repr

/-- Row of `app/models.py` `Enrollment`. -/
structure Enrollment where
  id : ℕ
  student_id : ℕ
  course_id : ℕ
  is_active : Bool := true
  progress_percentage : ℕ := 0
  enrolled_at : ℕ
  completed_at : Option ℕ := none
  last_accessed : ℕ
  deriving DecidableEq, Repr

/-- Row of `app/models.py` `LessonProgress`. -/
structure LessonProgress where
  id : ℕ
  enrollment_id : ℕ
  lesson_id : ℕ
  is_completed : Bool := false
  started_at : ℕ
  completed_at : Option ℕ := none
  last_accessed : ℕ
  deriving DecidableEq, Repr

/-- The relational store: the three tables the claims touch, plus a
counter supplying fresh primary keys (the `default=uuid.uuid4` columns). -/
structure DB where
  lessons : List Lesson
  enrollments : List Enrollment
  progress : List LessonProgress
  nextId : ℕ
  deriving DecidableEq, Repr

/-- The two `raise ValueError(...)` sites of
`app/services/enrollments.py::create_enrollment`. -/
inductive EnrollErr where
  | alreadyEnrolled
  | integrityFailure
  deriving DecidableEq, Repr

/-! ## Service layer (`app/services/*.py`) -/

/-- From `app/services/enrollments.py::create_enrollment` (lines 37–56):
pre-checks for an existing `(student_id, course_id)` row and raises
`ValueError` if found; otherwise inserts one new row.  The
`IntegrityError` branch is unreachable in the model because the schema
declares no constraint on the pair (see the schema section below). -/
def create_enrollment (db : DB) (now student_id course_id : ℕ) :
    Except EnrollErr Enrollment × DB :=
  match db.enrollments.find?
      (fun e => e.student_id == student_id && e.course_id == course_id) with
  | some _ => (Except.error EnrollErr.alreadyEnrolled, db)
  | none =>
      let e : Enrollment :=
        { id := db.nextId, student_id := student_id, course_id := course_id,
          enrolled_at := now, last_accessed := now }
      (Except.ok e, { db with enrollments := db.enrollments ++ [e],
                              nextId := db.nextId + 1 })

/-- From `app/services/enrollments.py::complete_enrollment` (lines 71–80):
looks the enrollment up by id and sets `completed_at = datetime.now()`
unconditionally. -/
def complete_enrollment (db : DB) (now enrollment_id : ℕ) :
    Option Enrollment × DB :=
  match db.enrollments.find? (fun e => e.id == enrollment_id) with
  | none => (none, db)
  | some e =>
      let e2 := { e with completed_at := some now }
      (some e2,
       { db with enrollments :=
           db.enrollments.map (fun x => if x.id == enrollment_id then e2 else x) })

/-- From `app/services/progress.py::get_progress_by_enrollment` (lines 18–22). -/
def get_progress_by_enrollment (db : DB) (enrollment_id : ℕ) :
    List LessonProgress :=
  db.progress.filter (fun p => p.enrollment_id == enrollment_id)

/-- From `app/services/progress.py::get_progress_by_enrollment_and_lesson`
(lines 25–31). -/
def get_progress_by_enrollment_and_lesson (db : DB)
    (enrollment_id lesson_id : ℕ) : Option LessonProgress :=
  db.progress.find?
    (fun p => p.enrollment_id == enrollment_id && p.lesson_id == lesson_id)

/-- From `app/services/progress.py::create_lesson_progress` (lines 34–54):
lookup-or-create; an existing row is returned as is, otherwise one new
row is inserted with the column defaults (`is_completed=False`,
`completed_at=NULL`) and `started_at`/`last_accessed` set to now. -/
def create_lesson_progress (db : DB) (now enrollment_id lesson_id : ℕ) :
    LessonProgress × DB :=
  match get_progress_by_enrollment_and_lesson db enrollment_id lesson_id with
  | some existing => (existing, db)
  | none =>
      let p : LessonProgress :=
        { id := db.nextId, enrollment_id := enrollment_id,
          lesson_id := lesson_id, started_at := now, last_accessed := now }
      (p, { db with progress := db.progress ++ [p], nextId := db.nextId + 1 })

/-- From `app/services/progress.py::update_lesson_progress` (lines 57–71):
looks the row up by id (returning `None` untouched when absent), then
sets `is_completed` to the argument, refreshes `last_accessed`, and sets
`completed_at` only when completing a row whose `completed_at` is null. -/
def update_lesson_progress (db : DB) (now progress_id : ℕ)
    (is_completed : Bool) : Option LessonProgress × DB :=
  match db.progress.find? (fun p => p.id == progress_id) with
  | none => (none, db)
  | some p =>
      let p2 : LessonProgress :=
        { p with is_completed := is_completed, last_accessed := now,
                 completed_at :=
                   if is_completed && p.completed_at == none then some now
                   else p.completed_at }
      (some p2,
       { db with progress :=
           db.progress.map (fun q => if q.id == progress_id then p2 else q) })

/-- The comparison `ORDER BY lessons.order` sorts by. -/
def lessonLE (a b : Lesson) : Prop := a.order ≤ b.order

instance : DecidableRel lessonLE := fun a b => Int.decLe a.order b.order

instance : IsTotal Lesson lessonLE := ⟨fun a b => Int.le_total a.order b.order⟩

instance : IsTrans Lesson lessonLE := ⟨fun _ _ _ h h2 => le_trans h h2⟩

/-- From `app/services/lessons.py::get_lessons_by_course` (lines 16–18):
`db.query(Lesson).filter(Lesson.course_id == course_id).order_by(Lesson.order).all()`. -/
def get_lessons_by_course (db : DB) (course_id : ℕ) : List Lesson :=
  List.insertionSort lessonLE (db.lessons.filter (fun l => l.course_id == course_id))

/-! ## Route handlers -/

/-- Responses of `app/routes/course.py::complete_lesson` (lines 223–285). -/
inductive CompleteLessonResult where
  | unauthorized
  | lessonNotFound
  | serverError
  | ok (course_completed : Bool)
  deriving DecidableEq, Repr

/-- Tail of `complete_lesson` from line 248 on, once the enrollment is in
hand: create-or-get the progress row, mark it complete, re-derive course
completion from the ordered lesson list and the enrollment's progress
rows, and stamp `enrollment.completed_at` when every lesson is done. -/
def complete_lesson_rest (db : DB) (now : ℕ) (enrollment : Enrollment)
    (lesson : Lesson) : CompleteLessonResult × DB :=
  let pr := create_lesson_progress db now enrollment.id lesson.id
  -- the route ignores the returned row of update_lesson_progress
  let db3 := (update_lesson_progress pr.2 now pr.1.id true).2
  let lessons := get_lessons_by_course db3 lesson.course_id
  let all_progress := get_progress_by_enrollment db3 enrollment.id
  let completed_lesson_ids :=
    (all_progress.filter (fun p => p.is_completed)).map (fun p => p.lesson_id)
  let all_complete := lessons.all (fun l => completed_lesson_ids.contains l.id)
  let db4 :=
    if all_complete then
      { db3 with enrollments :=
          db3.enrollments.map (fun e =>
            if e.id == enrollment.id then { e with completed_at := some now }
            else e) }
    else db3
  (CompleteLessonResult.ok all_complete, db4)

/-- From `app/routes/course.py::complete_lesson` (lines 223–285): requires a
session user (else 401), looks the lesson up (else 404), fetches the
caller's enrollment in the lesson's course and auto-enrolls when absent
(lines 244–246), then delegates to `complete_lesson_rest`.  A
`ValueError` escaping `create_enrollment` would be caught by the
blanket handler (line 281) as a 500. -/
def complete_lesson (db : DB) (now : ℕ) (session_user : Option ℕ)
    (lesson_id : ℕ) : CompleteLessonResult × DB :=
  match session_user with
  | none => (CompleteLessonResult.unauthorized, db)
  | some user_id =>
      match db.lessons.find? (fun l => l.id == lesson_id) with
      | none => (CompleteLessonResult.lessonNotFound, db)
      | some lesson =>
          match db.enrollments.find?
              (fun e => e.student_id == user_id && e.course_id == lesson.course_id) with
          | some enrollment => complete_lesson_rest db now enrollment lesson
          | none =>
              match create_enrollment db now user_id lesson.course_id with
              | (Except.error _, db1) => (CompleteLessonResult.serverError, db1)
              | (Except.ok enrollment, db1) =>
                  complete_lesson_rest db1 now enrollment lesson

/-- Responses of the token-API progress endpoints (`app/app.py`). -/
inductive ApiResult (α : Type) where
  | notFound
  | forbidden
  | serverError
  | ok (a : α)
  deriving DecidableEq, Repr

/-- From `app/app.py::update_lesson_progress_endpoint` (lines 1063–1095):
404 when the progress row is absent, 403 when the caller does not own
the enclosing enrollment, otherwise forwards the request body's
`is_completed` (defaulting to `False` when the field is null, line 1086)
to the service `update_lesson_progress`. -/
def update_lesson_progress_endpoint (db : DB) (now current_user progress_id : ℕ)
    (body_is_completed : Option Bool) : ApiResult LessonProgress × DB :=
  match db.progress.find? (fun p => p.id == progress_id) with
  | none => (ApiResult.notFound, db)
  | some progress =>
      match db.enrollments.find? (fun e => e.id == progress.enrollment_id) with
      | none => (ApiResult.serverError, db)  -- AttributeError on None, line 1080
      | some enrollment =>
          if enrollment.student_id ≠ current_user then (ApiResult.forbidden, db)
          else
            let is_completed := body_is_completed.getD false
            match update_lesson_progress db now progress_id is_completed with
            | (none, db1) => (ApiResult.notFound, db1)
            | (some p, db1) => (ApiResult.ok p, db1)

/-! ## Declared storage schema (`app/models.py`)

Only the uniqueness-relevant part of each table declaration: the column
names with their `unique=` flags, and the table-level multi-column
unique constraints (`__table_args__`), of which the source declares
none on any table. -/

/-- One `Column(...)` declaration: its name and whether `unique=True`. -/
structure ColumnDef where
  name : String
  is_unique : Bool
  deriving DecidableEq, Repr

/-- One table: its columns and its table-level multi-column unique
constraints (none are declared anywhere in `app/models.py`). -/
structure TableSchema where
  columns : List ColumnDef
  uniqueTogether : List (List String)
  deriving DecidableEq, Repr

/-- Schema of `app/models.py` `Enrollment` (lines 147–168): no `unique=True`
column, no `__table_args__`. -/
def enrollments_schema : TableSchema :=
  { columns :=
      [⟨"id", false⟩, ⟨"student_id", false⟩, ⟨"course_id", false⟩,
       ⟨"is_active", false⟩, ⟨"progress_percentage", false⟩,
       ⟨"enrolled_at", false⟩, ⟨"completed_at", false⟩,
       ⟨"last_accessed", false⟩],
    uniqueTogether := [] }

/-- Schema of `app/models.py` `LessonProgress` (lines 171–191): no `unique=True`
column, no `__table_args__`. -/
def lesson_progress_schema : TableSchema :=
  { columns :=
      [⟨"id", false⟩, ⟨"enrollment_id", false⟩, ⟨"lesson_id", false⟩,
       ⟨"is_completed", false⟩, ⟨"watch_time", false⟩,
       ⟨"started_at", false⟩, ⟨"completed_at", false⟩,
       ⟨"last_accessed", false⟩],
    uniqueTogether := [] }

/-- A schema enforces at-most-one-row-per `(f, g)` pair exactly when it
declares the pair (in either order) as unique together, or declares one
of the two columns individually unique. -/
def declaresPairUnique (t : TableSchema) (f g : String) : Prop :=
  [f, g] ∈ t.uniqueTogether ∨ [g, f] ∈ t.uniqueTogether ∨
    ∃ c ∈ t.columns, c.is_unique = true ∧ (c.name = f ∨ c.name = g)

instance (t : TableSchema) (f g : String) :
    Decidable (declaresPairUnique t f g) := by
  unfold declaresPairUnique
  infer_instance

/-! ## Profile-photo upload validation

Filenames and content types are `List Char` so that every check is a
plain byte-wise computation (`"x.png".toList` etc.). -/

/-- From `app/config.py` line 9: `ALLOWED_EXTENSIONS = {'png','jpg','jpeg','webp'}`. -/
def ALLOWED_EXTENSIONS : List (List Char) :=
  ["png".toList, "jpg".toList, "jpeg".toList, "webp".toList]

/-- From `app/config.py` line 10: `MAX_CONTENT_LENGTH = 16 * 1024 * 1024`. -/
def MAX_CONTENT_LENGTH : ℕ := 16 * 1024 * 1024

/-- Python `filename.rsplit('.', 1)[1]`: the suffix after the last dot. -/
def extAfterLastDot (filename : List Char) : List Char :=
  (filename.reverse.takeWhile (fun c => c ≠ '.')).reverse

/-- From `app/utils.py::allowed_file` (lines 7–9):
`'.' in filename and filename.rsplit('.', 1)[1].lower() in ALLOWED_EXTENSIONS`
(`.lower()` modelled for the ASCII range). -/
def allowed_file (filename : List Char) : Bool :=
  filename.contains '.' &&
    ALLOWED_EXTENSIONS.contains ((extAfterLastDot filename).map Char.toLower)

/-- Outcome of an upload request; `saved` records that the handler wrote
the file to disk and succeeded. -/
inductive UploadResult where
  | unauthorized
  | noFile
  | invalidType
  | tooLarge
  | saved
  deriving DecidableEq, Repr

/-- From `app/routes/student.py::upload_profile_photo` (lines 96–143) under
Flask's `MAX_CONTENT_LENGTH` enforcement: the framework rejects request
bodies over 16MB (413) before the handler runs; the handler then checks
authentication, presence of the file part, a non-empty filename, and
`allowed_file`, and otherwise saves the file to disk and updates the
profile — there is no size check of its own.  The second component
lists the files written to disk. -/
def flask_upload_profile_photo (session_user : Option ℕ)
    (filename : List Char) (size : ℕ) : UploadResult × List (List Char) :=
  if MAX_CONTENT_LENGTH < size then (UploadResult.tooLarge, [])
  else
    match session_user with
    | none => (UploadResult.unauthorized, [])
    | some _ =>
        if filename = [] then (UploadResult.noFile, [])
        else if allowed_file filename then (UploadResult.saved, [filename])
        else (UploadResult.invalidType, [])

/-- From `app/app.py` line 373: the token-API allow-list of content types. -/
def api_allowed_types : List (List Char) :=
  ["image/jpeg".toList, "image/jpg".toList, "image/png".toList,
   "image/webp".toList]

/-- From `app/app.py::upload_profile_photo` (lines 364–430): rejects a
content type outside the allow-list (400, lines 373–378), then rejects
a file over `5 * 1024 * 1024` bytes (400, lines 380–389); only after
both checks does it touch the disk (best-effort delete of the old
photo, then the write, lines 391–419).  The second component lists the
files written to disk. -/
def api_upload_profile_photo (content_type : List Char)
    (filename : List Char) (size : ℕ) : UploadResult × List (List Char) :=
  if ¬ (api_allowed_types.contains content_type) then
    (UploadResult.invalidType, [])
  else if 5 * 1024 * 1024 < size then (UploadResult.tooLarge, [])
  else (UploadResult.saved, [filename])

example : allowed_file ("photo.png".toList) = true := by decide
example : allowed_file ("photo.gif".toList) = false := by decide
example : allowed_file ("PHOTO.PNG".toList) = true := by decide
example : allowed_file ("photo".toList) = false := by decide

/-! ## Invariants and concrete witness states -/

/-- At most one enrollment row per `(student, course)` pair. -/
def AtMostOnePerPair (db : DB) : Prop :=
  db.enrollments.Pairwise
    (fun a b => ¬ (a.student_id = b.student_id ∧ a.course_id = b.course_id))

instance (db : DB) : Decidable (AtMostOnePerPair db) := by
  unfold AtMostOnePerPair
  infer_instance

/-- Primary keys already stored are strictly below the fresh-id counter —
true of every state the application can reach, since ids are only ever
drawn from the counter. -/
def FreshIds (db : DB) : Prop :=
  (∀ e ∈ db.enrollments, e.id < db.nextId) ∧
    (∀ p ∈ db.progress, p.id < db.nextId ∧ p.enrollment_id < db.nextId)

instance (db : DB) : Decidable (FreshIds db) := by
  unfold FreshIds
  infer_instance

/-- A state holding one enrollment (student 1 in course 1) whose course
completion was stamped at time 5. -/
def dbCompleted : DB :=
  { lessons := [],
    enrollments :=
      [{ id := 1, student_id := 1, course_id := 1, enrolled_at := 0,
         completed_at := some 5, last_accessed := 0 }],
    progress := [], nextId := 2 }

/-- A state holding one enrollment of student 7 and one completed
progress row for lesson 5 under it. -/
def dbProgressDone : DB :=
  { lessons := [{ id := 5, course_id := 1, order := 1 }],
    enrollments :=
      [{ id := 1, student_id := 7, course_id := 1, enrolled_at := 0,
         last_accessed := 0 }],
    progress :=
      [{ id := 2, enrollment_id := 1, lesson_id := 5, is_completed := true,
         started_at := 0, completed_at := some 3, last_accessed := 3 }],
    nextId := 6 }

/-- A state holding one lesson of course 9 and no enrollment at all. -/
def dbUnenrolled : DB :=
  { lessons := [{ id := 5, course_id := 9, order := 1 }],
    enrollments := [], progress := [], nextId := 10 }

/-! ## Theorems -/

/-- Claim C1: the percentage expression of `app/routes/course.py` line 164
evaluates the division and multiplication in binary64 floats before
truncating; at 29 completed lessons out of 50 this yields 28.999…,
truncated to 57, where `floor(100*29/50) = 58` — the floor specification
and the code disagree at this input. -/
theorem progress_percent_truncation_at_29_of_50 :
    progress_percent 29 50 = 57 ∧ 100 * 29 / 50 = 58 := by decide

/-- Claim C2: when an enrollment for the `(student, course)` pair already
exists, `create_enrollment` raises the already-enrolled domain error and
returns the state unchanged: no second row is inserted. -/
theorem create_enrollment_rejects_duplicate (db : DB) (now sid cid : ℕ)
    (e : Enrollment) (he : e ∈ db.enrollments)
    (hs : e.student_id = sid) (hc : e.course_id = cid) :
    create_enrollment db now sid cid =
      (Except.error EnrollErr.alreadyEnrolled, db) := by
  unfold create_enrollment
  cases hfind : db.enrollments.find?
      (fun x => x.student_id == sid && x.course_id == cid) with
  | some x => rfl
  | none =>
      rw [List.find?_eq_none] at hfind
      have h2 := hfind e he
      simp [hs, hc] at h2

theorem create_enrollment_rejects_duplicate_witness :
    create_enrollment dbCompleted 7 1 1 =
      (Except.error EnrollErr.alreadyEnrolled, dbCompleted) :=
  create_enrollment_rejects_duplicate dbCompleted 7 1 1
    { id := 1, student_id := 1, course_id := 1, enrolled_at := 0,
      completed_at := some 5, last_accessed := 0 }
    (by decide) rfl rfl

/-- Claim C3 counterexample: `app/models.py` declares no uniqueness over
`(student_id, course_id)` on `Enrollment` and none over
`(enrollment_id, lesson_id)` on `LessonProgress` — neither a table-level
unique constraint nor a unique column that could subsume one. -/
theorem no_declared_unique_pair :
    ¬ declaresPairUnique enrollments_schema ("student_id") ("course_id") ∧
      ¬ declaresPairUnique lesson_progress_schema ("enrollment_id") ("lesson_id") := by
  decide

/-- Claim C3 amended: the schema declares no multi-column uniqueness at
all on either table, so the application-level pre-check in
`create_enrollment` is the only guard; sequentially, that pre-check does
preserve the at-most-one-enrollment-per-pair invariant. -/
theorem schema_unique_absent_app_check_guards :
    enrollments_schema.uniqueTogether = [] ∧
      lesson_progress_schema.uniqueTogether = [] ∧
      ∀ db now sid cid, AtMostOnePerPair db →
        AtMostOnePerPair (create_enrollment db now sid cid).2 := by
  refine ⟨rfl, rfl, ?_⟩
  intro db now sid cid h
  unfold create_enrollment
  cases hfind : db.enrollments.find?
      (fun x => x.student_id == sid && x.course_id == cid) with
  | some x => exact h
  | none =>
      rw [List.find?_eq_none] at hfind
      unfold AtMostOnePerPair at h ⊢
      dsimp only
      rw [List.pairwise_append]
      refine ⟨h, List.pairwise_singleton _ _, ?_⟩
      intro a ha b hb
      rw [List.mem_singleton] at hb
      subst hb
      have h2 := hfind a ha
      simp only [Bool.and_eq_true, beq_iff_eq, not_and] at h2
      intro hcontra
      exact h2 hcontra.1 hcontra.2

theorem schema_unique_absent_app_check_guards_witness :
    AtMostOnePerPair dbCompleted ∧
      AtMostOnePerPair (create_enrollment dbCompleted 7 2 1).2 :=
  ⟨by decide,
   schema_unique_absent_app_check_guards.2.2 dbCompleted 7 2 1 (by decide)⟩

/-- Claim C4: re-marking an already-completed `LessonProgress` complete
leaves `completed_at` untouched (the guard on line 66 of
`app/services/progress.py` sees it already set) while `last_accessed` is
refreshed to now. -/
theorem update_completed_keeps_timestamp (db : DB) (now pid t : ℕ)
    (p : LessonProgress)
    (hfind : db.progress.find? (fun x => x.id == pid) = some p)
    (_hcomp : p.is_completed = true) (ht : p.completed_at = some t) :
    ∃ q, (update_lesson_progress db now pid true).1 = some q ∧
      q.completed_at = some t ∧ q.last_accessed = now ∧
      q.is_completed = true := by
  unfold update_lesson_progress
  rw [hfind]
  refine ⟨_, rfl, ?_, rfl, rfl⟩
  simp [ht]

theorem update_completed_keeps_timestamp_witness :
    ∃ q, (update_lesson_progress dbProgressDone 9 2 true).1 = some q ∧
      q.completed_at = some 3 ∧ q.last_accessed = 9 ∧
      q.is_completed = true :=
  update_completed_keeps_timestamp dbProgressDone 9 2 3
    { id := 2, enrollment_id := 1, lesson_id := 5, is_completed := true,
      started_at := 0, completed_at := some 3, last_accessed := 3 }
    rfl rfl rfl

/-- Claim C5 counterexample: `complete_enrollment` is not idempotent on
the timestamp — on a state whose sole enrollment was completed at time
5, calling it again at time 9 overwrites `completed_at` to 9. -/
theorem complete_enrollment_overwrites_completed_at :
    (dbCompleted.enrollments.map (fun e => e.completed_at)) = [some 5] ∧
      ((complete_enrollment dbCompleted 9 1).1.map (fun e => e.completed_at)) =
        some (some 9) := by
  decide

/-- Claim C5 amended: `complete_enrollment` (lines 71–80 of
`app/services/enrollments.py`) sets `completed_at` to the current time
unconditionally on every call, overwriting any earlier timestamp. -/
theorem complete_enrollment_sets_now (db : DB) (now eid : ℕ)
    (e : Enrollment)
    (h : db.enrollments.find? (fun x => x.id == eid) = some e) :
    ∃ q, (complete_enrollment db now eid).1 = some q ∧
      q.completed_at = some now := by
  unfold complete_enrollment
  rw [h]
  exact ⟨_, rfl, rfl⟩

theorem complete_enrollment_sets_now_witness :
    ∃ q, (complete_enrollment dbCompleted 9 1).1 = some q ∧
      q.completed_at = some 9 :=
  complete_enrollment_sets_now dbCompleted 9 1
    { id := 1, student_id := 1, course_id := 1, enrolled_at := 0,
      completed_at := some 5, last_accessed := 0 }
    rfl

/-- Claim C6 counterexample: the public PUT lesson-progress endpoint
returns a completed pair to the non-completed state — the owning student
sends `is_completed = false` for the completed row of `dbProgressDone`
and the row comes back with `is_completed = false`. -/
theorem update_endpoint_uncompletes :
    (update_lesson_progress_endpoint dbProgressDone 9 7 2 (some false)).1 =
      ApiResult.ok
        { id := 2, enrollment_id := 1, lesson_id := 5, is_completed := false,
          started_at := 0, completed_at := some 3, last_accessed := 9 } := by
  decide

/-- Claim C6 amended: the PUT endpoint forwards the request body's
`is_completed` verbatim (null defaulting to `false`), so `is_completed`
can transition from true back to false; `completed_at`, once set, is
never cleared by the update. -/
theorem update_endpoint_is_passthrough (db : DB) (now u pid t : ℕ)
    (body : Option Bool) (p : LessonProgress) (e : Enrollment)
    (hp : db.progress.find? (fun x => x.id == pid) = some p)
    (he : db.enrollments.find? (fun x => x.id == p.enrollment_id) = some e)
    (hu : e.student_id = u) (ht : p.completed_at = some t) :
    ∃ q, (update_lesson_progress_endpoint db now u pid body).1 =
        ApiResult.ok q ∧
      q.is_completed = body.getD false ∧ q.completed_at = some t := by
  unfold update_lesson_progress_endpoint
  rw [hp]
  dsimp only
  rw [he]
  dsimp only
  rw [if_neg (show ¬ (e.student_id ≠ u) from fun hne => hne hu)]
  unfold update_lesson_progress
  rw [hp]
  dsimp only
  refine ⟨_, rfl, rfl, ?_⟩
  simp [ht]

theorem update_endpoint_is_passthrough_witness :
    ∃ q, (update_lesson_progress_endpoint dbProgressDone 9 7 2 (some false)).1 =
        ApiResult.ok q ∧
      q.is_completed = (some false).getD false ∧ q.completed_at = some 3 :=
  update_endpoint_is_passthrough dbProgressDone 9 7 2 3 (some false)
    { id := 2, enrollment_id := 1, lesson_id := 5, is_completed := true,
      started_at := 0, completed_at := some 3, last_accessed := 3 }
    { id := 1, student_id := 7, course_id := 1, enrolled_at := 0,
      last_accessed := 0 }
    rfl rfl rfl rfl

/-- Claim C7: `create_lesson_progress` is lookup-or-create — an existing
row for the `(enrollment, lesson)` pair is returned with the state
untouched (all fields unchanged, no duplicate); otherwise exactly one
new row is appended with `is_completed = false` and a null
`completed_at`. -/
theorem create_lesson_progress_lookup_or_create (db : DB)
    (now eid lid : ℕ) :
    (∀ p, get_progress_by_enrollment_and_lesson db eid lid = some p →
        create_lesson_progress db now eid lid = (p, db)) ∧
      (get_progress_by_enrollment_and_lesson db eid lid = none →
        ∃ p, create_lesson_progress db now eid lid =
            (p, { db with progress := db.progress ++ [p],
                          nextId := db.nextId + 1 }) ∧
          p.is_completed = false ∧ p.completed_at = none ∧
          p.enrollment_id = eid ∧ p.lesson_id = lid ∧
          p.started_at = now ∧ p.last_accessed = now) := by
  constructor
  · intro p hp
    unfold create_lesson_progress
    rw [hp]
  · intro h
    unfold create_lesson_progress
    rw [h]
    exact ⟨_, rfl, rfl, rfl, rfl, rfl, rfl, rfl⟩

theorem create_lesson_progress_lookup_or_create_witness :
    create_lesson_progress dbProgressDone 9 1 5 =
      ({ id := 2, enrollment_id := 1, lesson_id := 5, is_completed := true,
         started_at := 0, completed_at := some 3, last_accessed := 3 },
       dbProgressDone) :=
  (create_lesson_progress_lookup_or_create dbProgressDone 9 1 5).1
    { id := 2, enrollment_id := 1, lesson_id := 5, is_completed := true,
      started_at := 0, completed_at := some 3, last_accessed := 3 }
    rfl

/-- Claim C8: `get_lessons_by_course` returns exactly the lessons of the
requested course, sorted ascending by the integer `order` column,
whatever order the rows were inserted in. -/
theorem get_lessons_by_course_sorted_and_complete (db : DB) (cid : ℕ) :
    List.Sorted lessonLE (get_lessons_by_course db cid) ∧
      ∀ l : Lesson,
        l ∈ get_lessons_by_course db cid ↔ l ∈ db.lessons ∧ l.course_id = cid := by
  constructor
  · exact List.sorted_insertionSort lessonLE _
  · intro l
    unfold get_lessons_by_course
    rw [List.mem_insertionSort, List.mem_filter]
    simp

/-- Claim C9 counterexample: the session-cookie upload route
(`app/routes/student.py`, guarded only by the 16MB `MAX_CONTENT_LENGTH`
of `app/config.py`) accepts a 6MB `.png` outright — the file is written
to disk, not rejected with a size error. -/
theorem flask_upload_accepts_6mb :
    flask_upload_profile_photo (some 1) ("photo.png".toList) (6 * 1024 * 1024) =
      (UploadResult.saved, ["photo.png".toList]) := by
  decide

/-- Claim C9 amended: the token-API upload endpoint rejects a 6MB file
with a size error before touching the disk (its cap is 5MB) and rejects
`image/gif` via the content-type allow-list, also before any write; the
session-cookie route rejects a `.gif` filename via the configured
extension allow-list before writing, but admits a 6MB file — its only
size gate is the framework-level 16MB cap. -/
theorem upload_size_and_type_gates :
    api_upload_profile_photo ("image/png".toList) ("p.png".toList)
        (6 * 1024 * 1024) = (UploadResult.tooLarge, []) ∧
      api_upload_profile_photo ("image/gif".toList) ("p.gif".toList) 1000 =
        (UploadResult.invalidType, []) ∧
      flask_upload_profile_photo (some 1) ("photo.gif".toList) 1000 =
        (UploadResult.invalidType, []) := by
  decide

/-- Helper: looking up a freshly appended row by its fresh id finds it,
since every pre-existing id is smaller. -/
theorem find?_id_append_fresh (l : List LessonProgress) (n : ℕ)
    (p0 : LessonProgress) (hl : ∀ p ∈ l, p.id < n) (hp : p0.id = n) :
    (l ++ [p0]).find? (fun q => q.id == n) = some p0 := by
  rw [List.find?_append]
  have hnone : l.find? (fun q => q.id == n) = none := by
    rw [List.find?_eq_none]
    intro x hx
    have := hl x hx
    simp only [beq_iff_eq]
    omega
  rw [hnone]
  simp [hp]

/-- Claim C10: hitting the mark-lesson-complete route while authenticated
but not enrolled in the lesson's course is not rejected — the handler
silently creates an enrollment for the `(user, course)` pair and records
the lesson completed under it. -/
theorem complete_lesson_auto_enrolls (db : DB) (now uid lid : ℕ)
    (L : Lesson) (hwf : FreshIds db)
    (hles : db.lessons.find? (fun l => l.id == lid) = some L)
    (hnoenr : db.enrollments.find?
        (fun e => e.student_id == uid && e.course_id == L.course_id) = none) :
    ∃ b db2, complete_lesson db now (some uid) lid =
        (CompleteLessonResult.ok b, db2) ∧
      ∃ e ∈ db2.enrollments, e.student_id = uid ∧ e.course_id = L.course_id ∧
        ∃ p ∈ db2.progress, p.enrollment_id = e.id ∧ p.lesson_id = lid ∧
          p.is_completed = true := by
  have hLid : L.id = lid := by
    have := List.find?_some hles
    simpa using this
  have hprnone : db.progress.find?
      (fun p => p.enrollment_id == db.nextId && p.lesson_id == L.id) = none := by
    rw [List.find?_eq_none]
    intro x hx
    have hlt := (hwf.2 x hx).2
    simp only [Bool.and_eq_true, beq_iff_eq, not_and]
    intro heq
    omega
  unfold complete_lesson
  rw [hles]
  dsimp only
  rw [hnoenr]
  unfold create_enrollment
  rw [hnoenr]
  dsimp only
  unfold complete_lesson_rest create_lesson_progress
  unfold get_progress_by_enrollment_and_lesson
  dsimp only
  rw [hprnone]
  dsimp only
  unfold update_lesson_progress
  dsimp only
  rw [find?_id_append_fresh db.progress (db.nextId + 1) _
    (fun p hp => Nat.lt_succ_of_lt (hwf.2 p hp).1) rfl]
  dsimp only
  rw [show (if (true && ((none : Option ℕ) == none)) = true then some now
      else (none : Option ℕ)) = some now from rfl]
  refine ⟨_, _, rfl, ?_⟩
  split
  · refine ⟨_, List.mem_map_of_mem _
        (List.mem_append_right _ (List.mem_singleton_self _)), ?_, ?_, _,
      List.mem_map_of_mem _
        (List.mem_append_right _ (List.mem_singleton_self _)), ?_, ?_, ?_⟩
    all_goals simp [hLid]
  · refine ⟨_, List.mem_append_right _ (List.mem_singleton_self _), rfl, rfl, _,
      List.mem_map_of_mem _
        (List.mem_append_right _ (List.mem_singleton_self _)), ?_, ?_, ?_⟩
    all_goals simp [hLid]

theorem complete_lesson_auto_enrolls_witness :
    ∃ b db2, complete_lesson dbUnenrolled 3 (some 1) 5 =
        (CompleteLessonResult.ok b, db2) ∧
      ∃ e ∈ db2.enrollments, e.student_id = 1 ∧ e.course_id = 9 ∧
        ∃ p ∈ db2.progress, p.enrollment_id = e.id ∧ p.lesson_id = 5 ∧
          p.is_completed = true :=
  complete_lesson_auto_enrolls dbUnenrolled 3 1 5
    { id := 5, course_id := 9, order := 1 } (by decide) rfl rfl

end LJCourses
